import Mathlib

/-!
Shallow embedding of the Appeal Strategy Engine of the parking-citation
repository: the jurisdiction catalog (`regulations.py`), the angle catalog
and classifier/evaluator (`appeal_strategies.py`), and the request assembler
(`appeal_generator.py`).  Python dictionaries with scalar values are embedded
as association lists over `Val`; the external generation call is a parameter
`gen : String → Except String String` (an `Except.error` models a raised
exception of the generation call, caught by the surrounding `try/except`).
-/

namespace ParkingAppeal

/-- A Python scalar value as stored in the open fact/evidence mappings:
`None`, a boolean, a string, or an integer. -/
inductive Val where
  | none
  | bool (b : Bool)
  | str (s : String)
  | int (n : Int)
  deriving Repr, DecidableEq

/-- Python truthiness of a scalar value. -/
def Val.truthy : Val → Bool
  | .none => false
  | .bool b => b
  | .str s => s ≠ ""
  | .int n => n ≠ 0

/-- Python `str()` of a scalar value, as interpolated into an f-string. -/
def Val.pyStr : Val → String
  | .none => "None"
  | .bool b => if b then "True" else "False"
  | .str s => s
  | .int n => toString n

/-- A Python dict with string keys, embedded as an association list in
insertion order (keys are unique in any dict the program builds). -/
abbrev Dict := List (String × Val)

/-- `d.get(k)` of a Python dict: the stored value, or `None` when absent. -/
def Dict.get (d : Dict) (k : String) : Val :=
  (List.lookup k d).getD Val.none

/-- Truthiness of `d.get(k)`, the test every `if citation_details.get(...)`
in the classifier performs. -/
def Dict.getTruthy (d : Dict) (k : String) : Bool :=
  (d.get k).truthy

/-- Python `str.title()`: uppercase each alphabetic character that follows a
non-alphabetic one, lowercase the remaining alphabetic characters. -/
def pyTitleAux : Bool → List Char → List Char
  | _, [] => []
  | prevAlpha, c :: cs =>
      (if c.isAlpha then (if prevAlpha then c.toLower else c.toUpper) else c)
        :: pyTitleAux c.isAlpha cs

/-- Python `str.title()` on a string. -/
def pyTitle (s : String) : String :=
  ⟨pyTitleAux false s.data⟩

/-- Python `s.replace(p, r)` for the one-character patterns the program
uses, at the character level. -/
def replaceChar (s : String) (p r : Char) : String :=
  ⟨s.data.map (fun c => if c = p then r else c)⟩

/-- Python `str.lower()` (character-wise, as for the ASCII data here). -/
def pyLower (s : String) : String :=
  ⟨s.data.map Char.toLower⟩

/-- Python `str.upper()` (character-wise, as for the ASCII data here). -/
def pyUpper (s : String) : String :=
  ⟨s.data.map Char.toUpper⟩

/-- The evidence-key derivation `item.lower().replace(" ", "_")` used by
`get_angle_strength`. -/
def deriveKey (s : String) : String :=
  replaceChar (pyLower s) ' ' '_'

/-- `AppealAngle` dataclass of `appeal_strategies.py`. -/
structure AppealAngle where
  name : String
  description : String
  key_questions : List String
  strength_indicators : List String
  required_evidence : List String
  deriving Repr, DecidableEq

/-- The fixed angle catalog `AppealStrategyAnalyzer.APPEAL_ANGLES`, in the
source's insertion order. -/
def APPEAL_ANGLES : List (String × AppealAngle) :=
  [ ("procedural_error",
     { name := "Procedural Error"
     , description := "Citation was issued incorrectly or does not follow proper procedures"
     , key_questions :=
        [ "Was the citation securely attached to your vehicle?"
        , "Are all details on the citation accurate (date, time, location, vehicle info)?"
        , "Did the officer follow proper procedures?"
        , "Is the citation number valid and legible?" ]
     , strength_indicators :=
        [ "Incorrect vehicle information"
        , "Wrong date or time"
        , "Citation not properly attached"
        , "Missing required information"
        , "Officer signature missing" ]
     , required_evidence :=
        [ "Photos of the citation showing errors"
        , "Vehicle registration showing correct information"
        , "Photos showing improper attachment if applicable" ] })
  , ("signage_issues",
     { name := "Inadequate or Confusing Signage"
     , description := "Parking restrictions were not clearly posted or signs were confusing"
     , key_questions :=
        [ "Were there clear signs indicating the parking restriction?"
        , "Were the signs visible and unobstructed?"
        , "Were there conflicting signs in the area?"
        , "Was the sign text legible and in compliance with local standards?" ]
     , strength_indicators :=
        [ "No sign visible from parking spot"
        , "Sign obstructed by trees/objects"
        , "Conflicting information from multiple signs"
        , "Faded or illegible signs"
        , "Sign not meeting MUTCD standards" ]
     , required_evidence :=
        [ "Photos showing parking spot and nearby signage"
        , "Photos of any obstructions or damaged signs"
        , "Photos showing perspective from driver's position"
        , "Multiple angles showing sign placement" ] })
  , ("meter_malfunction",
     { name := "Meter or Payment System Malfunction"
     , description := "The parking meter or payment system was not working properly"
     , key_questions :=
        [ "Did you attempt to pay for parking?"
        , "Was the meter displaying any error messages?"
        , "Did you report the malfunction?"
        , "Do you have proof of attempted payment?" ]
     , strength_indicators :=
        [ "Meter displayed 'out of order'"
        , "Payment transaction failed but money charged"
        , "Receipt showing payment attempt"
        , "Multiple users reporting same issue" ]
     , required_evidence :=
        [ "Photos of meter showing malfunction"
        , "Payment receipts or transaction records"
        , "Credit card statement showing charge"
        , "Report filed about meter malfunction" ] })
  , ("emergency_circumstances",
     { name := "Emergency or Extenuating Circumstances"
     , description := "Parking violation occurred due to an emergency situation"
     , key_questions :=
        [ "What was the nature of the emergency?"
        , "Do you have documentation of the emergency?"
        , "Was this your first parking violation?"
        , "How long was the vehicle parked?" ]
     , strength_indicators :=
        [ "Medical emergency"
        , "Vehicle breakdown"
        , "Avoiding accident"
        , "Personal safety concern"
        , "Family emergency" ]
     , required_evidence :=
        [ "Medical records or doctor's note"
        , "Police report if applicable"
        , "Tow truck receipt or mechanic report"
        , "Photos showing vehicle condition"
        , "Witness statements if available" ] })
  , ("payment_display_issue",
     { name := "Valid Payment Not Displayed"
     , description := "Payment was made but receipt was not properly displayed"
     , key_questions :=
        [ "Did you pay for parking before the citation was issued?"
        , "Do you have the parking receipt?"
        , "Why was the receipt not displayed?"
        , "What time was payment made vs. citation issued?" ]
     , strength_indicators :=
        [ "Receipt timestamp before citation time"
        , "Payment for correct zone/meter"
        , "Receipt fell inside vehicle"
        , "Wind blew receipt away" ]
     , required_evidence :=
        [ "Original parking receipt"
        , "Credit card or app payment confirmation"
        , "Photos of receipt with timestamp"
        , "Transaction records from parking app" ] })
  , ("zone_confusion",
     { name := "Unclear Zone or Time Restrictions"
     , description := "Zone boundaries or time restrictions were unclear or ambiguous"
     , key_questions :=
        [ "Were zone boundaries clearly marked?"
        , "Were time restrictions clearly posted?"
        , "Were there multiple overlapping zones?"
        , "Was the zone map accurate?" ]
     , strength_indicators :=
        [ "No clear zone boundary markings"
        , "Conflicting zone signs"
        , "Time restriction periods unclear"
        , "Street cleaning schedule ambiguous" ]
     , required_evidence :=
        [ "Photos showing zone markings (or lack thereof)"
        , "Photos of relevant signage"
        , "Screenshot of official parking map if applicable"
        , "Photos showing perspective of parking location" ] })
  , ("first_time_leniency",
     { name := "First-Time Violation / Good Record"
     , description := "Request for leniency based on clean parking record"
     , key_questions :=
        [ "Is this your first parking violation in this jurisdiction?"
        , "How long have you been parking in this area?"
        , "Do you have a generally good compliance record?"
        , "Was this an honest mistake?" ]
     , strength_indicators :=
        [ "No prior parking citations"
        , "Long-time resident or worker in area"
        , "Regular parker with good history"
        , "Simple misunderstanding of rules" ]
     , required_evidence :=
        [ "Driving record or DMV printout"
        , "Statement of good parking history"
        , "Proof of residency or employment in area"
        , "Character reference if applicable" ] })
  , ("disability_accommodation",
     { name := "Disability-Related Accommodation"
     , description := "Citation related to disability parking or accommodation needs"
     , key_questions :=
        [ "Do you have a valid disability placard or license plate?"
        , "Was the placard properly displayed?"
        , "Was the accessible parking space properly marked?"
        , "Were you denied reasonable accommodation?" ]
     , strength_indicators :=
        [ "Valid disability placard not recognized"
        , "Accessible space markings faded or unclear"
        , "No accessible parking available"
        , "Time limit insufficient for disability needs" ]
     , required_evidence :=
        [ "Copy of disability placard documentation"
        , "Photos showing placard displayed"
        , "Photos of parking space markings"
        , "Medical documentation if relevant" ] })
  , ("time_discrepancy",
     { name := "Time Discrepancy or Error"
     , description := "Citation time is incorrect or conflicts with actual circumstances"
     , key_questions :=
        [ "What time did you park?"
        , "What time did you leave?"
        , "Do you have proof of your timeline?"
        , "What time does the citation show?" ]
     , strength_indicators :=
        [ "Citation time impossible or implausible"
        , "Proof of being elsewhere at citation time"
        , "Multiple citations same time different locations"
        , "Meter time conflicts with citation time" ]
     , required_evidence :=
        [ "Timestamped photos or videos"
        , "Receipt or parking payment with timestamp"
        , "GPS or phone location data"
        , "Witness statements"
        , "Business receipts showing location at citation time" ] }) ]

/-- `AppealStrategyAnalyzer.get_all_angles`. -/
def get_all_angles : List (String × AppealAngle) := APPEAL_ANGLES

/-- `AppealStrategyAnalyzer.get_angle`: `APPEAL_ANGLES.get(angle_key)`,
`None` when the key is unknown. -/
def get_angle (angle_key : String) : Option AppealAngle :=
  List.lookup angle_key APPEAL_ANGLES

/-- Trigger condition of classifier rule 1 (procedural_error). -/
def cond1 (d : Dict) : Bool :=
  d.getTruthy "has_errors" || d.getTruthy "missing_info" ||
    d.getTruthy "incorrect_vehicle_info"

/-- Trigger condition of classifier rule 2 (signage_issues). -/
def cond2 (d : Dict) : Bool :=
  d.getTruthy "unclear_signage" || d.getTruthy "no_visible_signs" ||
    d.getTruthy "conflicting_signs"

/-- Trigger condition of classifier rule 3 (meter_malfunction). -/
def cond3 (d : Dict) : Bool :=
  d.getTruthy "meter_malfunction" || d.getTruthy "payment_failed" ||
    d.getTruthy "paid_but_cited"

/-- Trigger condition of classifier rule 4 (emergency_circumstances). -/
def cond4 (d : Dict) : Bool :=
  d.getTruthy "emergency_situation"

/-- Trigger condition of classifier rule 5 (payment_display_issue). -/
def cond5 (d : Dict) : Bool :=
  d.getTruthy "paid_not_displayed" || d.getTruthy "receipt_not_visible"

/-- Trigger condition of classifier rule 6 (zone_confusion). -/
def cond6 (d : Dict) : Bool :=
  d.getTruthy "unclear_zone" || d.getTruthy "zone_boundary_unclear"

/-- Trigger condition of classifier rule 7 (first_time_leniency). -/
def cond7 (d : Dict) : Bool :=
  d.getTruthy "first_violation"

/-- Trigger condition of classifier rule 8 (disability_accommodation). -/
def cond8 (d : Dict) : Bool :=
  d.getTruthy "disability_related" || d.getTruthy "has_disability_placard"

/-- Trigger condition of classifier rule 9 (time_discrepancy). -/
def cond9 (d : Dict) : Bool :=
  d.getTruthy "time_incorrect" || d.getTruthy "timeline_conflicts"

/-- The sequential append structure of `analyze_situation`, abstracted over
the nine rule conditions. -/
def classifyBits (b1 b2 b3 b4 b5 b6 b7 b8 b9 : Bool) : List String :=
  let a : List String := []
  let a := if b1 then a ++ ["procedural_error"] else a
  let a := if b2 then a ++ ["signage_issues"] else a
  let a := if b3 then a ++ ["meter_malfunction"] else a
  let a := if b4 then a ++ ["emergency_circumstances"] else a
  let a := if b5 then a ++ ["payment_display_issue"] else a
  let a := if b6 then a ++ ["zone_confusion"] else a
  let a := if b7 then a ++ ["first_time_leniency"] else a
  let a := if b8 then a ++ ["disability_accommodation"] else a
  let a := if b9 then a ++ ["time_discrepancy"] else a
  if a = [] then ["procedural_error", "signage_issues", "first_time_leniency"] else a

/-- `AppealStrategyAnalyzer.analyze_situation`: each satisfied OR-rule
appends its angle key in the fixed source order; the fixed fallback list is
returned when no rule fires. -/
def analyze_situation (citation_details : Dict) : List String :=
  classifyBits (cond1 citation_details) (cond2 citation_details)
    (cond3 citation_details) (cond4 citation_details) (cond5 citation_details)
    (cond6 citation_details) (cond7 citation_details) (cond8 citation_details)
    (cond9 citation_details)

/-- The body of `get_angle_strength` once the angle is resolved: count the
required-evidence items whose derived key is truthy in `evidence`, form the
match ratio (0 for an empty required-evidence list, guarding the division),
and band it.  Ratios are exact rationals; for every ratio this catalog can
produce (denominators 3, 4 and 5) the Python float comparisons against the
literals `0.7` and `0.4` agree with the exact comparisons. -/
def angleStrengthCore (angle : AppealAngle) (evidence : Dict) : String :=
  let evidence_count : Nat :=
    angle.required_evidence.countP (fun item => evidence.getTruthy (deriveKey item))
  let r : ℚ :=
    if angle.required_evidence ≠ [] then
      (evidence_count : ℚ) / (angle.required_evidence.length : ℚ)
    else 0
  if r ≥ 7/10 then "strong"
  else if r ≥ 4/10 then "moderate"
  else "weak"

/-- `AppealStrategyAnalyzer.get_angle_strength`: resolve the angle
(`"weak"` when unknown) and band its evidence-match ratio. -/
def get_angle_strength (angle_key : String) (evidence : Dict) : String :=
  match get_angle angle_key with
  | Option.none => "weak"
  | Option.some angle => angleStrengthCore angle evidence

/-- A state-level regulation record of `RegulationDatabase.STATE_REGULATIONS`
(dicts of fixed shape, embedded structurally). -/
structure StateInfo where
  name : String
  statute_limitations_days : Nat
  common_defenses : List String
  appeal_address_format : String
  deriving Repr, DecidableEq

/-- A city-level regulation record of `RegulationDatabase.CITY_REGULATIONS`. -/
structure CityInfo where
  state : String
  specific_rules : List String
  online_appeal : Bool
  fee_waiver_available : Bool
  deriving Repr, DecidableEq

/-- `RegulationDatabase.COMMON_APPEAL_GROUNDS`. -/
def COMMON_APPEAL_GROUNDS : List String :=
  [ "unclear_signage"
  , "emergency_circumstances"
  , "vehicle_malfunction"
  , "medical_emergency"
  , "incorrect_citation_details"
  , "meter_malfunction"
  , "conflicting_signs"
  , "first_time_offense"
  , "extenuating_circumstances"
  , "procedural_errors"
  , "incorrect_vehicle_info"
  , "paid_but_not_displayed"
  , "time_discrepancy"
  , "zone_confusion"
  , "disability_accommodation" ]

/-- `RegulationDatabase.STATE_REGULATIONS`, in source insertion order. -/
def STATE_REGULATIONS : List (String × StateInfo) :=
  [ ("CA",
     { name := "California"
     , statute_limitations_days := 21
     , common_defenses :=
        [ "CVC 22507.8 - Disabled parking violations require proper investigation"
        , "CVC 40215 - Notice of parking violation must be securely attached"
        , "Signage must comply with Manual on Uniform Traffic Control Devices (MUTCD)" ]
     , appeal_address_format := "City parking authority or designated appeals board" })
  , ("NY",
     { name := "New York"
     , statute_limitations_days := 30
     , common_defenses :=
        [ "NYC Traffic Rules require clear and visible signage"
        , "Broken meters - proof required within 7 days"
        , "Emergency vehicles - documentation required" ]
     , appeal_address_format := "Department of Finance, Parking Violations Bureau" })
  , ("TX",
     { name := "Texas"
     , statute_limitations_days := 21
     , common_defenses :=
        [ "Transportation Code 681.0101 - Proper notice requirements"
        , "Sign visibility and compliance with state standards"
        , "Meter malfunction - immediate reporting helps case" ]
     , appeal_address_format := "Municipal court or designated hearing officer" })
  , ("FL",
     { name := "Florida"
     , statute_limitations_days := 30
     , common_defenses :=
        [ "F.S. 316.1967 - Parking regulations must be clearly posted"
        , "Meter violations - malfunction must be documented"
        , "Emergency circumstances with supporting documentation" ]
     , appeal_address_format := "City clerk or parking violations bureau" })
  , ("IL",
     { name := "Illinois"
     , statute_limitations_days := 21
     , common_defenses :=
        [ "Chicago Municipal Code - signage requirements"
        , "Meter payment issues - transaction records"
        , "Medical emergency documentation" ]
     , appeal_address_format := "Department of Administrative Hearings" }) ]

/-- `RegulationDatabase.CITY_REGULATIONS`, in source insertion order. -/
def CITY_REGULATIONS : List (String × CityInfo) :=
  [ ("San Francisco",
     { state := "CA"
     , specific_rules :=
        [ "SFMTA requires photos of signage for signage-related appeals"
        , "Street cleaning violations - check SFMTA calendar"
        , "Residential permit zones - proof of residency required" ]
     , online_appeal := true
     , fee_waiver_available := true })
  , ("Los Angeles",
     { state := "CA"
     , specific_rules :=
        [ "LADOT handles parking enforcement"
        , "First-time violators may get reduced fines"
        , "Photo evidence highly recommended" ]
     , online_appeal := true
     , fee_waiver_available := false })
  , ("New York City",
     { state := "NY"
     , specific_rules :=
        [ "Online appeals through NYC.gov required for most violations"
        , "Hearing requests must be filed within 30 days"
        , "Evidence upload system available online" ]
     , online_appeal := true
     , fee_waiver_available := false })
  , ("Chicago",
     { state := "IL"
     , specific_rules :=
        [ "City of Chicago parking ticket portal"
        , "Early payment discount available (not applicable if appealing)"
        , "Administrative hearing process" ]
     , online_appeal := true
     , fee_waiver_available := false })
  , ("Houston",
     { state := "TX"
     , specific_rules :=
        [ "Houston Municipal Courts handle appeals"
        , "Written statement required for appeal"
        , "Court appearance may be required for some violations" ]
     , online_appeal := false
     , fee_waiver_available := true })
  , ("Miami",
     { state := "FL"
     , specific_rules :=
        [ "Miami Parking Authority handles enforcement"
        , "Online contest system available"
        , "Supporting documents must be uploaded or mailed" ]
     , online_appeal := true
     , fee_waiver_available := false }) ]

/-- `RegulationDatabase.get_state_info`: lookup under the upper-cased code,
`None` when unknown. -/
def get_state_info (state_code : String) : Option StateInfo :=
  List.lookup (pyUpper state_code) STATE_REGULATIONS

/-- `RegulationDatabase.get_city_info`: lookup by exact city name. -/
def get_city_info (city_name : String) : Option CityInfo :=
  List.lookup city_name CITY_REGULATIONS

/-- The merged jurisdiction value built by `get_combined_info` (a dict with
the fixed keys `state`, `city`, `available_grounds`). -/
structure CombinedInfo where
  state : Option StateInfo
  city : Option CityInfo
  available_grounds : List String
  deriving Repr, DecidableEq

/-- The city slot computed by `get_combined_info`: filled only when a truthy
city name resolves to a record whose state matches the upper-cased input
state code. -/
def resolveCity (city_name : Option String) (state_code : String) :
    Option CityInfo :=
  match city_name with
  | Option.none => Option.none
  | Option.some n =>
      if n = "" then Option.none
      else
        match get_city_info n with
        | Option.none => Option.none
        | Option.some ci =>
            if ci.state = pyUpper state_code then Option.some ci
            else Option.none

/-- `RegulationDatabase.get_combined_info`. -/
def get_combined_info (city_name : Option String) (state_code : String) :
    CombinedInfo :=
  { state := get_state_info state_code
  , city := resolveCity city_name state_code
  , available_grounds := COMMON_APPEAL_GROUNDS }

/-- `RegulationDatabase.get_all_states`. -/
def get_all_states : List String :=
  STATE_REGULATIONS.map Prod.fst

/-- `RegulationDatabase.get_cities_for_state`. -/
def get_cities_for_state (state_code : String) : List String :=
  (CITY_REGULATIONS.filter (fun p => p.2.state = pyUpper state_code)).map Prod.fst

/-- The text a Python loop `for x in xs: prompt += f"- {x}\n"` appends. -/
def bulletLines : List String → String
  | [] => ""
  | x :: xs => "- " ++ x ++ "\n" ++ bulletLines xs

/-- The text the loops over `citation_details.items()` / `evidence.items()`
append: one `- Key Title: value` line per truthy entry. -/
def dictLines : Dict → String
  | [] => ""
  | (k, v) :: rest =>
      (if v.truthy then
        "- " ++ pyTitle (replaceChar k '_' ' ') ++ ": " ++ v.pyStr ++ "\n"
       else "") ++ dictLines rest

/-- The jurisdiction-information state section of the single-angle request
(the `if state_info:` branch of `_build_appeal_prompt`). -/
def stateBlock : Option StateInfo → String
  | Option.none => ""
  | Option.some st =>
      "State: " ++ st.name ++ "\n" ++
      "Appeal Deadline: " ++ toString st.statute_limitations_days ++
        " days from citation\n" ++
      (if st.common_defenses ≠ [] then
        "\nRelevant State Regulations:\n" ++ bulletLines st.common_defenses
       else "")

/-- The jurisdiction-information city section of the single-angle request
(the `if city_info:` branch of `_build_appeal_prompt`). -/
def cityBlock : Option CityInfo → String
  | Option.none => ""
  | Option.some ci =>
      "\nCity-Specific Information:\n" ++
      (if ci.specific_rules ≠ [] then bulletLines ci.specific_rules else "") ++
      "Online Appeal Available: " ++ (Val.bool ci.online_appeal).pyStr ++ "\n"

/-- `AppealGenerator._build_appeal_prompt`: the single-angle request body,
with the source's section order and literal text. -/
def build_appeal_prompt (citation_details : Dict) (location_info : CombinedInfo)
    (angle : AppealAngle) (evidence : Dict) : String :=
  "You are an expert legal assistant specializing in parking citation appeals.\nYour task is to write a compelling, professional, and legally sound appeal letter.\n\nAPPEAL STRATEGY: "
  ++ angle.name
  ++ "\nSTRATEGY DESCRIPTION: "
  ++ angle.description
  ++ "\n\nCITATION DETAILS:\n"
  ++ dictLines citation_details
  ++ "\n\nJURISDICTION INFORMATION:\n"
  ++ stateBlock location_info.state
  ++ cityBlock location_info.city
  ++ "\n\nAVAILABLE EVIDENCE:\n"
  ++ dictLines evidence
  ++ "\n\nKEY POINTS FOR THIS APPEAL ANGLE:\n"
  ++ bulletLines angle.strength_indicators
  ++ "\n\nREQUIRED STRUCTURE:\n1. Opening: Brief, professional greeting and statement of purpose\n2. Citation Information: Reference the citation number, date, location\n3. Main Argument: Present the "
  ++ angle.name
  ++ " case clearly and persuasively\n4. Supporting Evidence: Reference all available evidence that supports this angle\n5. Legal/Regulatory Basis: Cite relevant regulations from the jurisdiction\n6. Conclusion: Respectful request for dismissal or reduction\n7. Closing: Professional sign-off\n\nTONE REQUIREMENTS:\n- Professional and respectful\n- Factual and objective\n- Confident but not aggressive\n- Empathetic where appropriate\n- Legally informed\n\nIMPORTANT GUIDELINES:\n- Do NOT fabricate facts or evidence not provided\n- Cite specific regulations when applicable\n- Keep the letter concise (300-500 words ideal)\n- Use formal business letter format\n- Be specific about dates, times, and locations\n- Request specific relief (dismissal or reduction of fine)\n\nGenerate the appeal letter now:"

/-- `AppealGenerator._generate_single_angle_appeal`, parametric in the
external generation call `gen`; an `Except.error` is the caught exception
branch, which returns the error string prefixed by
`"Error generating appeal: "`. -/
def generate_single_angle_appeal (gen : String → Except String String)
    (citation_details : Dict) (location_info : CombinedInfo)
    (angle : AppealAngle) (evidence : Dict) : String :=
  match gen (build_appeal_prompt citation_details location_info angle evidence) with
  | Except.ok t => t
  | Except.error e => "Error generating appeal: " ++ e

/-- Assignment `appeals[k] = v` on a Python dict embedded as an association
list: replace in place when the key exists, append otherwise. -/
def dictInsert (m : List (String × String)) (k v : String) :
    List (String × String) :=
  if m.any (fun p => p.1 = k) then
    m.map (fun p => if p.1 = k then (k, v) else p)
  else m ++ [(k, v)]

/-- `AppealGenerator.generate_multi_angle_appeal`: one single-angle request
per resolvable key of `selected_angles`, in list order, stored under the
angle's display name. -/
def generate_multi_angle_appeal (gen : String → Except String String)
    (citation_details : Dict) (location_info : CombinedInfo)
    (selected_angles : List String) (evidence : Dict) :
    List (String × String) :=
  selected_angles.foldl (fun appeals angle_key =>
    match get_angle angle_key with
    | Option.none => appeals
    | Option.some angle =>
        dictInsert appeals angle.name
          (generate_single_angle_appeal gen citation_details location_info
            angle evidence)) []

/-- `AppealGenerator._format_dict`: the truthy entries rendered as bullet
lines, or `"None provided"` when the dict is empty or nothing rendered. -/
def format_dict (data : Dict) : String :=
  if data = [] then "None provided"
  else
    let formatted := dictLines data
    if formatted = "" then "None provided" else formatted

/-- The text the loop `for point in angle.strength_indicators[:3]` appends in
the comprehensive prompt. -/
def indentBullets : List String → String
  | [] => ""
  | x :: xs => "  - " ++ x ++ "\n" ++ indentBullets xs

/-- The per-angle summary blocks of the comprehensive prompt. -/
def angleBlocks : List AppealAngle → String
  | [] => ""
  | a :: rest =>
      "\n" ++ a.name ++ ":\nDescription: " ++ a.description ++
      "\nKey points:\n" ++ indentBullets (a.strength_indicators.take 3) ++
      angleBlocks rest

/-- The Python `AttributeError` raised when `.get` is called on `None`. -/
def noneGetAttributeError : String :=
  "AttributeError: 'NoneType' object has no attribute 'get'"

/-- The request body built by `AppealGenerator.generate_comprehensive_appeal`
before the generation call, for a present state record `st` (the only case
in which the source reaches the end of the prompt construction: with
`location_info["state"] = None` it raises while interpolating
`state_info.get('name', 'Unknown')`, see `generate_comprehensive_appeal`
below). -/
def comprehensive_prompt (citation_details : Dict) (st : StateInfo)
    (city : Option CityInfo) (all_angles : List String)
    (evidence : Dict) : String :=
  let defenses_block : String :=
    if st.common_defenses ≠ [] then
      "\nRelevant Regulations:\n" ++ bulletLines st.common_defenses
    else ""
  let city_block : String :=
    match city with
    | Option.none => ""
    | Option.some ci =>
        if ci.specific_rules ≠ [] then
          "\nCity-Specific Rules:\n" ++ bulletLines ci.specific_rules
        else ""
  let angle_details : List AppealAngle := all_angles.filterMap get_angle
  "You are an expert legal assistant specializing in parking citation appeals.\nWrite a single, comprehensive appeal letter that strategically incorporates multiple strong arguments.\n\nCITATION DETAILS:\n"
  ++ format_dict citation_details
  ++ "\n\nJURISDICTION:\nState: "
  ++ st.name
  ++ "\nAppeal Deadline: "
  ++ toString st.statute_limitations_days
  ++ " days\n"
  ++ defenses_block
  ++ city_block
  ++ "\n\nAVAILABLE EVIDENCE:\n"
  ++ format_dict evidence
  ++ "\n\nAPPEAL ANGLES TO INCORPORATE:\n"
  ++ angleBlocks angle_details
  ++ "\n\nCreate a single, unified appeal letter that:\n1. Opens professionally with citation reference\n2. Presents the strongest arguments from the available angles\n3. Weaves multiple points together coherently (don't list angles separately)\n4. Cites relevant regulations and laws\n5. References all supporting evidence naturally\n6. Maintains a respectful, professional tone throughout\n7. Concludes with a clear request for relief\n\nThe letter should read as a cohesive whole, not as separate sections for each angle.\nAim for 400-600 words. Use formal business letter format."

/-- `AppealGenerator.generate_comprehensive_appeal`, parametric in the
external generation call; the result is `Except`, with `Except.error` an
exception escaping the function.  The prompt construction interpolates
`state_info.get('name', 'Unknown')` outside the `try/except`; when the
jurisdiction's state record is absent (`location_info["state"]` is `None`,
as `get_combined_info` stores for an unknown state code) that `.get` on
`None` raises `AttributeError` before any generation call, for every
generation function.  With a state record present, an exception of the
generation call itself is caught and returned as the plain error string
prefixed by `"Error generating comprehensive appeal: "`. -/
def generate_comprehensive_appeal (gen : String → Except String String)
    (citation_details : Dict) (location_info : CombinedInfo)
    (all_angles : List String) (evidence : Dict) : Except String String :=
  match location_info.state with
  | Option.none => Except.error noneGetAttributeError
  | Option.some st =>
      match gen (comprehensive_prompt citation_details st location_info.city
          all_angles evidence) with
      | Except.ok t => Except.ok t
      | Except.error e =>
          Except.ok ("Error generating comprehensive appeal: " ++ e)

/-! ### Helper definitions and lemmas for the verification -/

/-- The nineteen citation-fact keys the classifier reads, in rule order. -/
def TRIGGER_FLAGS : List String :=
  [ "has_errors", "missing_info", "incorrect_vehicle_info"
  , "unclear_signage", "no_visible_signs", "conflicting_signs"
  , "meter_malfunction", "payment_failed", "paid_but_cited"
  , "emergency_situation"
  , "paid_not_displayed", "receipt_not_visible"
  , "unclear_zone", "zone_boundary_unclear"
  , "first_violation"
  , "disability_related", "has_disability_placard"
  , "time_incorrect", "timeline_conflicts" ]

/-- The keys of the satisfied OR-rules, one occurrence each, in the fixed
rule order, abstracted over the nine rule conditions. -/
def selectedBits (b1 b2 b3 b4 b5 b6 b7 b8 b9 : Bool) : List String :=
  (if b1 then ["procedural_error"] else []) ++
  (if b2 then ["signage_issues"] else []) ++
  (if b3 then ["meter_malfunction"] else []) ++
  (if b4 then ["emergency_circumstances"] else []) ++
  (if b5 then ["payment_display_issue"] else []) ++
  (if b6 then ["zone_confusion"] else []) ++
  (if b7 then ["first_time_leniency"] else []) ++
  (if b8 then ["disability_accommodation"] else []) ++
  (if b9 then ["time_discrepancy"] else [])

/-- The keys of the satisfied classifier rules for a fact mapping, in the
fixed priority order. -/
def selectedAngles (d : Dict) : List String :=
  selectedBits (cond1 d) (cond2 d) (cond3 d) (cond4 d) (cond5 d) (cond6 d)
    (cond7 d) (cond8 d) (cond9 d)

theorem classifyBits_spec : ∀ b1 b2 b3 b4 b5 b6 b7 b8 b9 : Bool,
    (b1 || b2 || b3 || b4 || b5 || b6 || b7 || b8 || b9) = true →
    classifyBits b1 b2 b3 b4 b5 b6 b7 b8 b9
      = selectedBits b1 b2 b3 b4 b5 b6 b7 b8 b9 := by decide

theorem classifyBits_shape : ∀ b1 b2 b3 b4 b5 b6 b7 b8 b9 : Bool,
    (classifyBits b1 b2 b3 b4 b5 b6 b7 b8 b9).Nodup ∧
    (classifyBits b1 b2 b3 b4 b5 b6 b7 b8 b9) ≠ [] ∧
    (classifyBits b1 b2 b3 b4 b5 b6 b7 b8 b9).length ≤ 9 ∧
    (∀ k ∈ classifyBits b1 b2 b3 b4 b5 b6 b7 b8 b9, (get_angle k).isSome) := by
  decide

/-- At least one recognized trigger flag is truthy exactly when some rule
condition holds. -/
theorem anyFlag_iff_anyCond (d : Dict) :
    (∃ k ∈ TRIGGER_FLAGS, d.getTruthy k = true) ↔
      (cond1 d || cond2 d || cond3 d || cond4 d || cond5 d || cond6 d ||
        cond7 d || cond8 d || cond9 d) = true := by
  simp only [TRIGGER_FLAGS, List.mem_cons, List.not_mem_nil, or_false,
    cond1, cond2, cond3, cond4, cond5, cond6, cond7, cond8, cond9,
    Bool.or_eq_true, exists_eq_or_imp, exists_eq_left]
  tauto

/-- `needle` appears verbatim as a contiguous substring of `hay`. -/
def occursIn (needle hay : String) : Prop :=
  ∃ a b : String, hay = a ++ needle ++ b

theorem occursIn_self (s : String) : occursIn s s :=
  ⟨"", "", by simp⟩

theorem occursIn_appendL {n a : String} (b : String) (h : occursIn n a) :
    occursIn n (a ++ b) := by
  obtain ⟨x, y, rfl⟩ := h
  refine ⟨x, y ++ b, ?_⟩
  apply String.ext
  simp

theorem occursIn_appendR (a : String) {n b : String} (h : occursIn n b) :
    occursIn n (a ++ b) := by
  obtain ⟨x, y, rfl⟩ := h
  refine ⟨a ++ x, y, ?_⟩
  apply String.ext
  simp

/-- Every truthy entry's rendered value occurs in the bullet lines of a
dict. -/
theorem dictLines_contains {d : Dict} {k : String} {v : Val}
    (hm : (k, v) ∈ d) (hv : v.truthy = true) :
    occursIn v.pyStr (dictLines d) := by
  induction d with
  | nil => cases hm
  | cons p rest ih =>
      rcases List.mem_cons.mp hm with h | h
      · subst h
        simp only [dictLines, hv, if_true]
        exact occursIn_appendL _ (occursIn_appendL _
          (occursIn_appendR _ (occursIn_self _)))
      · exact occursIn_appendR _ (ih h)

/-- Every list element occurs in its bullet lines. -/
theorem bulletLines_contains {xs : List String} {x : String} (hm : x ∈ xs) :
    occursIn x (bulletLines xs) := by
  induction xs with
  | nil => cases hm
  | cons y rest ih =>
      rcases List.mem_cons.mp hm with h | h
      · subst h
        exact occursIn_appendL _ (occursIn_appendL _
          (occursIn_appendR _ (occursIn_self _)))
      · exact occursIn_appendR _ (ih h)

/-! ### Claim theorems: the classifier -/

/-- C2: whenever at least one recognized trigger flag is truthy, `classify`
returns a non-empty, duplicate-free sequence holding exactly the angle keys
of the satisfied OR-rules in the fixed priority order, and the facts
`{unclear_signage, first_violation, meter_malfunction}` yield exactly
`["signage_issues", "meter_malfunction", "first_time_leniency"]`. -/
theorem classify_triggered_spec :
    (∀ d : Dict, (∃ k ∈ TRIGGER_FLAGS, d.getTruthy k = true) →
      analyze_situation d = selectedAngles d ∧
      analyze_situation d ≠ [] ∧ (analyze_situation d).Nodup) ∧
    analyze_situation
        [("unclear_signage", Val.bool true), ("first_violation", Val.bool true),
         ("meter_malfunction", Val.bool true)]
      = ["signage_issues", "meter_malfunction", "first_time_leniency"] := by
  constructor
  · intro d hd
    have hc := (anyFlag_iff_anyCond d).mp hd
    exact ⟨classifyBits_spec _ _ _ _ _ _ _ _ _ hc,
      (classifyBits_shape _ _ _ _ _ _ _ _ _).2.1,
      (classifyBits_shape _ _ _ _ _ _ _ _ _).1⟩
  · decide

/-- Witness for C2 at the spec's concrete fact mapping. -/
theorem classify_triggered_spec_witness :
    analyze_situation
        [("unclear_signage", Val.bool true), ("first_violation", Val.bool true),
         ("meter_malfunction", Val.bool true)]
      = selectedAngles
        [("unclear_signage", Val.bool true), ("first_violation", Val.bool true),
         ("meter_malfunction", Val.bool true)] :=
  (classify_triggered_spec.1 _ ⟨"unclear_signage", by decide, by decide⟩).1

/-- C5: when no recognized trigger flag is truthy (in particular for the
empty fact mapping) `classify` returns exactly the fixed fallback sequence,
and `classify` never returns an empty sequence. -/
theorem classify_fallback_spec :
    (∀ d : Dict, (∀ k ∈ TRIGGER_FLAGS, d.getTruthy k = false) →
      analyze_situation d
        = ["procedural_error", "signage_issues", "first_time_leniency"]) ∧
    (∀ d : Dict, analyze_situation d ≠ []) ∧
    analyze_situation []
      = ["procedural_error", "signage_issues", "first_time_leniency"] := by
  refine ⟨?_, fun d => (classifyBits_shape _ _ _ _ _ _ _ _ _).2.1, by decide⟩
  intro d h
  have g1 := h "has_errors" (by simp [TRIGGER_FLAGS])
  have g2 := h "missing_info" (by simp [TRIGGER_FLAGS])
  have g3 := h "incorrect_vehicle_info" (by simp [TRIGGER_FLAGS])
  have g4 := h "unclear_signage" (by simp [TRIGGER_FLAGS])
  have g5 := h "no_visible_signs" (by simp [TRIGGER_FLAGS])
  have g6 := h "conflicting_signs" (by simp [TRIGGER_FLAGS])
  have g7 := h "meter_malfunction" (by simp [TRIGGER_FLAGS])
  have g8 := h "payment_failed" (by simp [TRIGGER_FLAGS])
  have g9 := h "paid_but_cited" (by simp [TRIGGER_FLAGS])
  have g10 := h "emergency_situation" (by simp [TRIGGER_FLAGS])
  have g11 := h "paid_not_displayed" (by simp [TRIGGER_FLAGS])
  have g12 := h "receipt_not_visible" (by simp [TRIGGER_FLAGS])
  have g13 := h "unclear_zone" (by simp [TRIGGER_FLAGS])
  have g14 := h "zone_boundary_unclear" (by simp [TRIGGER_FLAGS])
  have g15 := h "first_violation" (by simp [TRIGGER_FLAGS])
  have g16 := h "disability_related" (by simp [TRIGGER_FLAGS])
  have g17 := h "has_disability_placard" (by simp [TRIGGER_FLAGS])
  have g18 := h "time_incorrect" (by simp [TRIGGER_FLAGS])
  have g19 := h "timeline_conflicts" (by simp [TRIGGER_FLAGS])
  simp [analyze_situation, classifyBits, cond1, cond2, cond3, cond4, cond5,
    cond6, cond7, cond8, cond9, g1, g2, g3, g4, g5, g6, g7, g8, g9, g10,
    g11, g12, g13, g14, g15, g16, g17, g18, g19]

/-- Witness for C5 at a fact mapping with only unrecognized keys. -/
theorem classify_fallback_spec_witness :
    analyze_situation [("note", Val.str "late"), ("fine_amount", Val.int 90)]
      = ["procedural_error", "signage_issues", "first_time_leniency"] :=
  classify_fallback_spec.1 _ (by decide)

/-- C9: every key `classify` returns resolves in the fixed angle catalog,
and the returned sequence has at most nine keys, each occurring once. -/
theorem classify_keys_in_catalog (d : Dict) :
    (∀ k ∈ analyze_situation d, (get_angle k).isSome) ∧
    (analyze_situation d).length ≤ 9 ∧ (analyze_situation d).Nodup :=
  ⟨(classifyBits_shape _ _ _ _ _ _ _ _ _).2.2.2,
   (classifyBits_shape _ _ _ _ _ _ _ _ _).2.2.1,
   (classifyBits_shape _ _ _ _ _ _ _ _ _).1⟩

/-- Witness for C9: a returned key of the empty mapping resolves in the
catalog. -/
theorem classify_keys_in_catalog_witness :
    (get_angle "procedural_error").isSome :=
  (classify_keys_in_catalog []).1 "procedural_error" (by decide)

/-- C10: `classify` depends only on the truthiness of the nineteen
recognized trigger flags: fact mappings agreeing on those are classified
identically, whatever other keys or values they hold. -/
theorem classify_flag_extensional (d1 d2 : Dict)
    (h : ∀ k ∈ TRIGGER_FLAGS, d1.getTruthy k = d2.getTruthy k) :
    analyze_situation d1 = analyze_situation d2 := by
  have g1 := h "has_errors" (by simp [TRIGGER_FLAGS])
  have g2 := h "missing_info" (by simp [TRIGGER_FLAGS])
  have g3 := h "incorrect_vehicle_info" (by simp [TRIGGER_FLAGS])
  have g4 := h "unclear_signage" (by simp [TRIGGER_FLAGS])
  have g5 := h "no_visible_signs" (by simp [TRIGGER_FLAGS])
  have g6 := h "conflicting_signs" (by simp [TRIGGER_FLAGS])
  have g7 := h "meter_malfunction" (by simp [TRIGGER_FLAGS])
  have g8 := h "payment_failed" (by simp [TRIGGER_FLAGS])
  have g9 := h "paid_but_cited" (by simp [TRIGGER_FLAGS])
  have g10 := h "emergency_situation" (by simp [TRIGGER_FLAGS])
  have g11 := h "paid_not_displayed" (by simp [TRIGGER_FLAGS])
  have g12 := h "receipt_not_visible" (by simp [TRIGGER_FLAGS])
  have g13 := h "unclear_zone" (by simp [TRIGGER_FLAGS])
  have g14 := h "zone_boundary_unclear" (by simp [TRIGGER_FLAGS])
  have g15 := h "first_violation" (by simp [TRIGGER_FLAGS])
  have g16 := h "disability_related" (by simp [TRIGGER_FLAGS])
  have g17 := h "has_disability_placard" (by simp [TRIGGER_FLAGS])
  have g18 := h "time_incorrect" (by simp [TRIGGER_FLAGS])
  have g19 := h "timeline_conflicts" (by simp [TRIGGER_FLAGS])
  simp only [analyze_situation, cond1, cond2, cond3, cond4, cond5, cond6,
    cond7, cond8, cond9, g1, g2, g3, g4, g5, g6, g7, g8, g9, g10, g11, g12,
    g13, g14, g15, g16, g17, g18, g19]

/-- Witness for C10: an extra string-valued key and a different truthy
encoding do not change the classification. -/
theorem classify_flag_extensional_witness :
    analyze_situation
        [("has_errors", Val.bool true), ("officer_note", Val.str "smudged")]
      = analyze_situation [("has_errors", Val.int 1)] :=
  classify_flag_extensional _ _ (by decide)

/-! ### Claim theorems: the evidence-strength evaluator -/

/-- The match ratio of the evaluator: matched required-evidence items (their
derived keys truthy in the evidence set) over the length of the
required-evidence list, defined as 0 for an empty list. -/
def ratioOf (a : AppealAngle) (ev : Dict) : ℚ :=
  if a.required_evidence = [] then 0
  else (a.required_evidence.countP
          (fun item => ev.getTruthy (deriveKey item)) : ℚ)
        / a.required_evidence.length

/-- The ordering weak < moderate < strong on result bands. -/
def strengthRank (s : String) : ℕ :=
  if s = "strong" then 2 else if s = "moderate" then 1 else 0

theorem angleStrengthCore_eq (a : AppealAngle) (ev : Dict) :
    angleStrengthCore a ev =
      (if ratioOf a ev ≥ 7/10 then "strong"
       else if ratioOf a ev ≥ 4/10 then "moderate" else "weak") := by
  unfold angleStrengthCore ratioOf
  by_cases he : a.required_evidence = [] <;> simp [he]

/-- C3: the evaluator returns `"weak"` for an unknown angle key, and for a
known angle bands the exact match ratio with bounds inclusive below:
`"strong"` iff ratio ≥ 0.7, `"moderate"` iff 0.4 ≤ ratio < 0.7, `"weak"`
iff ratio < 0.4. -/
theorem strength_bands (angle_key : String) (ev : Dict) :
    (get_angle angle_key = Option.none →
      get_angle_strength angle_key ev = "weak") ∧
    (∀ a, get_angle angle_key = Option.some a →
      ((get_angle_strength angle_key ev = "strong" ↔
          (7:ℚ)/10 ≤ ratioOf a ev) ∧
       (get_angle_strength angle_key ev = "moderate" ↔
          (4:ℚ)/10 ≤ ratioOf a ev ∧ ratioOf a ev < 7/10) ∧
       (get_angle_strength angle_key ev = "weak" ↔
          ratioOf a ev < (4:ℚ)/10))) := by
  constructor
  · intro h
    simp [get_angle_strength, h]
  · intro a ha
    have hcore : get_angle_strength angle_key ev = angleStrengthCore a ev := by
      simp [get_angle_strength, ha]
    rw [hcore, angleStrengthCore_eq]
    by_cases h7 : ratioOf a ev ≥ 7/10
    · rw [if_pos h7]
      exact ⟨iff_of_true rfl h7,
        iff_of_false (by decide) (fun hc => absurd hc.2 (not_lt.mpr h7)),
        iff_of_false (by decide)
          (not_lt.mpr (le_trans (by norm_num) h7))⟩
    · by_cases h4 : ratioOf a ev ≥ 4/10
      · rw [if_neg h7, if_pos h4]
        exact ⟨iff_of_false (by decide) h7,
          iff_of_true rfl ⟨h4, lt_of_not_ge h7⟩,
          iff_of_false (by decide) (not_lt.mpr h4)⟩
      · rw [if_neg h7, if_neg h4]
        exact ⟨iff_of_false (by decide) h7,
          iff_of_false (by decide) (fun hc => h4 hc.1),
          iff_of_true rfl (lt_of_not_ge h4)⟩

/-- Witness for C3 at the 0.4 boundary: two of the five required-evidence
items of `time_discrepancy` match, ratio exactly 0.4, band `"moderate"`. -/
theorem strength_bands_witness :
    get_angle_strength "time_discrepancy"
      [("gps_or_phone_location_data", Val.bool true),
       ("witness_statements", Val.bool true)] = "moderate" := by
  refine ((strength_bands "time_discrepancy"
    [("gps_or_phone_location_data", Val.bool true),
     ("witness_statements", Val.bool true)]).2 _ rfl).2.1.mpr ?_
  have hc : List.countP
      (fun item => Dict.getTruthy
        [("gps_or_phone_location_data", Val.bool true),
         ("witness_statements", Val.bool true)] (deriveKey item))
      ["Timestamped photos or videos",
       "Receipt or parking payment with timestamp",
       "GPS or phone location data", "Witness statements",
       "Business receipts showing location at citation time"] = 2 := by
    decide
  constructor <;> (simp only [ratioOf]; rw [if_neg (by simp)]; norm_num [hc])

theorem getTruthy_cons (k : String) (v : Val) (ev : Dict) (j : String) :
    Dict.getTruthy ((k, v) :: ev) j
      = if j = k then v.truthy else ev.getTruthy j := by
  unfold Dict.getTruthy Dict.get
  by_cases h : j = k
  · simp [List.lookup, h]
  · have hb : (j == k) = false := beq_eq_false_iff_ne.mpr h
    simp [List.lookup, hb, h]

theorem angleStrengthCore_mono (a : AppealAngle) (ev ev' : Dict)
    (h : ∀ j, ev.getTruthy j = true → ev'.getTruthy j = true) :
    strengthRank (angleStrengthCore a ev)
      ≤ strengthRank (angleStrengthCore a ev') := by
  rw [angleStrengthCore_eq, angleStrengthCore_eq]
  have hr : ratioOf a ev ≤ ratioOf a ev' := by
    unfold ratioOf
    by_cases he : a.required_evidence = []
    · simp [he]
    · rw [if_neg he, if_neg he]
      have hlen : (0:ℚ) < a.required_evidence.length := by
        have := List.length_pos.mpr he
        exact_mod_cast this
      refine (div_le_div_iff_of_pos_right hlen).mpr ?_
      exact_mod_cast List.countP_mono_left (fun x _ hx => h _ hx)
  by_cases h7 : ratioOf a ev ≥ 7/10
  · rw [if_pos h7, if_pos (le_trans h7 hr)]
  · by_cases h4 : ratioOf a ev ≥ 4/10
    · rw [if_neg h7, if_pos h4]
      by_cases h7' : ratioOf a ev' ≥ 7/10
      · rw [if_pos h7']
        decide
      · rw [if_neg h7', if_pos (le_trans h4 hr)]
    · rw [if_neg h7, if_neg h4]
      have hw : strengthRank "weak" = 0 := by decide
      rw [hw]
      exact Nat.zero_le _

/-- C6: adding one truthy evidence key that matches a required-evidence
item's derived key never lowers the resulting band
(weak < moderate < strong). -/
theorem strength_monotone (angle_key k : String) (v : Val) (ev : Dict)
    (hv : v.truthy = true)
    (_hmatch : ∃ a, get_angle angle_key = Option.some a ∧
      ∃ item ∈ a.required_evidence, deriveKey item = k) :
    strengthRank (get_angle_strength angle_key ev)
      ≤ strengthRank (get_angle_strength angle_key ((k, v) :: ev)) := by
  cases hga : get_angle angle_key with
  | none => simp [get_angle_strength, hga]
  | some a =>
      simp only [get_angle_strength, hga]
      apply angleStrengthCore_mono
      intro j hj
      rw [getTruthy_cons]
      by_cases hjk : j = k
      · simp [hjk, hv]
      · simp [hjk, hj]

/-- Witness for C6: supplying the first required-evidence item of
`procedural_error` on top of the empty evidence set. -/
theorem strength_monotone_witness :
    strengthRank (get_angle_strength "procedural_error" [])
      ≤ strengthRank (get_angle_strength "procedural_error"
          [("photos_of_the_citation_showing_errors", Val.bool true)]) :=
  strength_monotone "procedural_error"
    "photos_of_the_citation_showing_errors" (Val.bool true) [] (by decide)
    ⟨_, rfl, "Photos of the citation showing errors", by decide, by decide⟩

/-! ### Claim theorems: totality of the core operations -/

theorem lookup_none_iff_not_mem {β : Type} (l : List (String × β))
    (k : String) :
    List.lookup k l = Option.none ↔ k ∉ l.map Prod.fst := by
  rw [List.lookup_eq_none_iff]
  simp only [bne_iff_ne, ne_eq, List.mem_map]
  push_neg
  constructor
  · intro h p hp hke
    exact h p hp hke.symm
  · intro h p hp hke
    exact h p hp hke.symm

/-- The lookup, classifier and evaluator operations are total with explicit
defaults: unknown state and city codes resolve to an absent value, an
unknown angle evaluates to `"weak"`, an empty required-evidence list
evaluates to `"weak"` (the guarded division), the classifier always returns
a non-empty list, the combined jurisdiction value always carries the fixed
common grounds, and the evaluator always returns one of the three bands.
(The request assembler is not covered: its unified operation is not total,
see `comprehensive_raises_on_absent_state`.) -/
theorem core_total (state_code city_name : String) (city? : Option String)
    (d : Dict) (angle_key : String) (ev : Dict) (a : AppealAngle) :
    (get_state_info state_code = Option.none ↔
      pyUpper state_code ∉ STATE_REGULATIONS.map Prod.fst) ∧
    (get_city_info city_name = Option.none ↔
      city_name ∉ CITY_REGULATIONS.map Prod.fst) ∧
    (get_combined_info city? state_code).available_grounds
      = COMMON_APPEAL_GROUNDS ∧
    (get_angle angle_key = Option.none →
      get_angle_strength angle_key ev = "weak") ∧
    (a.required_evidence = [] → angleStrengthCore a ev = "weak") ∧
    analyze_situation d ≠ [] ∧
    (get_angle_strength angle_key ev = "strong" ∨
     get_angle_strength angle_key ev = "moderate" ∨
     get_angle_strength angle_key ev = "weak") := by
  refine ⟨lookup_none_iff_not_mem _ _, lookup_none_iff_not_mem _ _, rfl,
    ?_, ?_, (classifyBits_shape _ _ _ _ _ _ _ _ _).2.1, ?_⟩
  · intro h
    simp [get_angle_strength, h]
  · intro h
    rw [angleStrengthCore_eq]
    unfold ratioOf
    rw [if_pos h, if_neg (by norm_num), if_neg (by norm_num)]
  · cases hga : get_angle angle_key with
    | none => exact Or.inr (Or.inr (by simp [get_angle_strength, hga]))
    | some a' =>
        have hc : get_angle_strength angle_key ev = angleStrengthCore a' ev := by
          simp [get_angle_strength, hga]
        rw [hc, angleStrengthCore_eq]
        split_ifs
        · exact Or.inl rfl
        · exact Or.inr (Or.inl rfl)
        · exact Or.inr (Or.inr rfl)

/-- Instance of `core_total`: an unknown angle key evaluates to `"weak"`. -/
theorem core_total_witness :
    get_angle_strength "unknown_angle" [] = "weak" :=
  (core_total "CA" "Miami" Option.none [] "unknown_angle" []
    ⟨"", "", [], [], []⟩).2.2.2.1 rfl

/-- C8: the claim that every core operation — request assembly included —
is total over its documented domain and never raises is contradicted by the
code: for a jurisdiction whose state record is absent, exactly what
`get_combined_info` returns for every unknown state code, the unified
request assembler raises `AttributeError` (`.get` called on `None`, outside
the `try/except`) for every generation function, fact mapping, angle list
and evidence set, before any generation call.  The single-angle assembler
guards the same case with `if state_info:`, and the crash site itself names
the intended `'Unknown'` fallback, so the spec states the intent and the
code has the bug. -/
theorem comprehensive_raises_on_absent_state
    (gen : String → Except String String) (cd : Dict) (ks : List String)
    (ev : Dict) :
    generate_comprehensive_appeal gen cd
        (get_combined_info Option.none "ZZ") ks ev
      = Except.error noneGetAttributeError := by
  have h : (get_combined_info Option.none "ZZ").state = Option.none := rfl
  simp [generate_comprehensive_appeal, h]

/-! ### Claim theorems: jurisdiction resolution -/

/-- C4: the combined jurisdiction value always carries the state record
looked up under the upper-cased code and the fixed common-grounds list, and
its city slot is populated exactly when the given city name resolves to a
record whose state code equals the upper-cased input state code; in
particular San Francisco resolves under "CA" but not under "NY". -/
theorem combined_info_spec (city? : Option String) (state_code : String) :
    ((get_combined_info city? state_code).state
        = List.lookup (pyUpper state_code) STATE_REGULATIONS) ∧
    ((get_combined_info city? state_code).available_grounds
        = COMMON_APPEAL_GROUNDS) ∧
    (∀ ci, (get_combined_info city? state_code).city = Option.some ci ↔
      ∃ n, city? = Option.some n ∧ get_city_info n = Option.some ci ∧
        ci.state = pyUpper state_code) ∧
    (get_combined_info (Option.some "San Francisco") "CA").city.isSome = true ∧
    (get_combined_info (Option.some "San Francisco") "NY").city
      = Option.none := by
  refine ⟨rfl, rfl, ?_, by decide, by decide⟩
  intro ci
  show resolveCity city? state_code = Option.some ci ↔ _
  cases city? with
  | none => simp [resolveCity]
  | some n =>
      simp only [resolveCity, Option.some.injEq]
      by_cases hn : n = ""
      · rw [if_pos hn]
        subst hn
        constructor
        · intro h
          exact Option.noConfusion h
        · rintro ⟨n', hn', hci, _⟩
          subst hn'
          have hz : get_city_info "" = Option.none := rfl
          rw [hz] at hci
          exact Option.noConfusion hci
      · rw [if_neg hn]
        cases hci' : get_city_info n with
        | none =>
            show (Option.none : Option CityInfo) = Option.some ci ↔ _
            constructor
            · intro h
              exact Option.noConfusion h
            · rintro ⟨n', hn', hc, _⟩
              subst hn'
              rw [hci'] at hc
              exact Option.noConfusion hc
        | some c =>
            show (if c.state = pyUpper state_code then Option.some c
              else Option.none) = Option.some ci ↔ _
            by_cases hst : c.state = pyUpper state_code
            · rw [if_pos hst]
              constructor
              · intro h
                obtain rfl : c = ci := by injection h
                exact ⟨n, rfl, hci', hst⟩
              · rintro ⟨n', hn', hc, hcs⟩
                subst hn'
                rw [hci'] at hc
                exact hc
            · rw [if_neg hst]
              constructor
              · intro h
                exact Option.noConfusion h
              · rintro ⟨n', hn', hc, hcs⟩
                subst hn'
                rw [hci'] at hc
                obtain rfl : c = ci := by injection hc
                exact absurd hcs hst

/-! ### Claim theorems: the request assembler and generation failures -/

theorem dictInsert_vals {m : List (String × String)} {k v t : String}
    (hm : ∀ p ∈ m, p.2 = t) (hv : v = t) :
    ∀ p ∈ dictInsert m k v, p.2 = t := by
  unfold dictInsert
  split_ifs with h
  · intro p hp
    rcases List.mem_map.mp hp with ⟨q, hq, rfl⟩
    by_cases hqk : q.1 = k
    · simp [hqk, hv]
    · simp [hqk]
      exact hm q hq
  · intro p hp
    rcases List.mem_append.mp hp with h' | h'
    · exact hm p h'
    · rcases List.mem_singleton.mp h' with rfl
      exact hv

theorem multi_angle_vals_aux (gen : String → Except String String)
    (cd : Dict) (loc : CombinedInfo) (ev : Dict) (t : String)
    (hgen : ∀ a : AppealAngle,
      generate_single_angle_appeal gen cd loc a ev = t) :
    ∀ (ks : List String) (acc : List (String × String)),
      (∀ p ∈ acc, p.2 = t) →
      ∀ p ∈ ks.foldl (fun appeals angle_key =>
          match get_angle angle_key with
          | Option.none => appeals
          | Option.some angle =>
              dictInsert appeals angle.name
                (generate_single_angle_appeal gen cd loc angle ev)) acc,
        p.2 = t := by
  intro ks
  induction ks with
  | nil => intro acc hacc p hp; exact hacc p hp
  | cons key rest ih =>
      intro acc hacc
      rw [List.foldl_cons]
      cases hk : get_angle key with
      | none => exact ih acc hacc
      | some a =>
          exact ih _ (dictInsert_vals hacc (hgen a))

/-- C1 counterexample: the value returned for a failing generation call is
a plain string that can coincide with a successfully generated text, so it
is not a tagged failure result distinguishable from generated prose. -/
theorem generation_failure_not_tagged :
    generate_single_angle_appeal
        (fun _ => Except.ok "Error generating appeal: quota exceeded")
        [] ⟨Option.none, Option.none, COMMON_APPEAL_GROUNDS⟩
        ((get_angle "procedural_error").getD ⟨"", "", [], [], []⟩) []
      = generate_single_angle_appeal
        (fun _ => Except.error "quota exceeded")
        [] ⟨Option.none, Option.none, COMMON_APPEAL_GROUNDS⟩
        ((get_angle "procedural_error").getD ⟨"", "", [], [], []⟩) [] := rfl

/-- C1 (amended): on a generation failure carrying message `e`, the
single-angle operation returns — without throwing — the non-empty plain
string `"Error generating appeal: " ++ e`, and every entry of the
multi-angle batch carries that same string; the unified comprehensive
operation returns the non-empty plain string
`"Error generating comprehensive appeal: " ++ e` when the jurisdiction's
state record is present, but for an absent state record it raises
`AttributeError` before the generation call is ever reached, for every
generation function; in all cases the failure text is a plain string marked
only by a conventional prefix, not a tagged result distinguishable from
generated prose. -/
theorem generation_failure_error_strings (e : String) (cd : Dict)
    (loc : CombinedInfo) (a : AppealAngle) (ks : List String) (ev : Dict) :
    generate_single_angle_appeal (fun _ => Except.error e) cd loc a ev
      = "Error generating appeal: " ++ e ∧
    (∀ st, loc.state = Option.some st →
      generate_comprehensive_appeal (fun _ => Except.error e) cd loc ks ev
        = Except.ok ("Error generating comprehensive appeal: " ++ e)) ∧
    (loc.state = Option.none →
      ∀ gen : String → Except String String,
        generate_comprehensive_appeal gen cd loc ks ev
          = Except.error noneGetAttributeError) ∧
    "Error generating appeal: " ++ e ≠ "" ∧
    "Error generating comprehensive appeal: " ++ e ≠ "" ∧
    (∀ p ∈ generate_multi_angle_appeal (fun _ => Except.error e) cd loc ks ev,
      p.2 = "Error generating appeal: " ++ e) := by
  refine ⟨rfl, ?_, ?_, ?_, ?_, ?_⟩
  · intro st hst
    simp [generate_comprehensive_appeal, hst]
  · intro h gen
    simp [generate_comprehensive_appeal, h]
  · intro h
    have := congrArg String.data h
    simp at this
  · intro h
    have := congrArg String.data h
    simp at this
  · exact multi_angle_vals_aux _ cd loc ev _ (fun _ => rfl) ks [] (by simp)

/-- Witness for C1 at a concrete failure message, on a jurisdiction whose
state record is present. -/
theorem generation_failure_error_strings_witness :
    generate_comprehensive_appeal (fun _ => Except.error "network timeout")
        [] (get_combined_info Option.none "CA") [] []
      = Except.ok
          ("Error generating comprehensive appeal: " ++ "network timeout") :=
  ((generation_failure_error_strings "network timeout" []
    (get_combined_info Option.none "CA")
    ⟨"Procedural Error", "", [], [], []⟩ [] []).2.1 _ rfl)

theorem lookup_mem {β : Type} {l : List (String × β)} {k : String} {b : β}
    (h : List.lookup k l = Option.some b) : (k, b) ∈ l := by
  induction l with
  | nil => cases h
  | cons p rest ih =>
      by_cases hk : k == p.1
      · have hk' : k = p.1 := eq_of_beq hk
        rw [List.lookup, hk] at h
        obtain rfl : p.2 = b := by injection h
        subst hk'
        simp
      · rw [List.lookup, Bool.eq_false_iff.mpr hk] at h
        exact List.mem_cons_of_mem _ (ih h)

theorem get_angle_name_inj {k1 k2 : String} {a1 a2 : AppealAngle}
    (h1 : get_angle k1 = Option.some a1) (h2 : get_angle k2 = Option.some a2)
    (hne : k1 ≠ k2) : a1.name ≠ a2.name := by
  intro heq
  have m1 := lookup_mem h1
  have m2 := lookup_mem h2
  have hnd : (APPEAL_ANGLES.map (fun p => p.2.name)).Nodup := by decide
  exact hne (congrArg Prod.fst (List.inj_on_of_nodup_map hnd m1 m2 heq))

theorem prompt_contains (cd : Dict) (loc : CombinedInfo) (a : AppealAngle)
    (ev : Dict) :
    occursIn a.name (build_appeal_prompt cd loc a ev) ∧
    (∀ k v, (k, v) ∈ cd → v.truthy = true →
      occursIn v.pyStr (build_appeal_prompt cd loc a ev)) ∧
    (∀ k v, (k, v) ∈ ev → v.truthy = true →
      occursIn v.pyStr (build_appeal_prompt cd loc a ev)) ∧
    (∀ st, loc.state = Option.some st →
      occursIn st.name (build_appeal_prompt cd loc a ev) ∧
      ∀ dfn ∈ st.common_defenses,
        occursIn dfn (build_appeal_prompt cd loc a ev)) ∧
    (∀ ci, loc.city = Option.some ci →
      ∀ r ∈ ci.specific_rules,
        occursIn r (build_appeal_prompt cd loc a ev)) := by
  unfold build_appeal_prompt
  refine ⟨?_, ?_, ?_, ?_, ?_⟩
  · apply occursIn_appendL
    apply occursIn_appendR
    exact occursIn_self _
  · intro k v hm hv
    iterate 10 apply occursIn_appendL
    apply occursIn_appendR
    exact dictLines_contains hm hv
  · intro k v hm hv
    iterate 5 apply occursIn_appendL
    apply occursIn_appendR
    exact dictLines_contains hm hv
  · intro st hst
    rw [hst]
    constructor
    · iterate 8 apply occursIn_appendL
      apply occursIn_appendR
      simp only [stateBlock]
      iterate 5 apply occursIn_appendL
      apply occursIn_appendR
      exact occursIn_self _
    · intro dfn hdfn
      iterate 8 apply occursIn_appendL
      apply occursIn_appendR
      simp only [stateBlock]
      apply occursIn_appendR
      rw [if_pos (List.ne_nil_of_mem hdfn)]
      apply occursIn_appendR
      exact bulletLines_contains hdfn
  · intro ci hci r hr
    rw [hci]
    iterate 7 apply occursIn_appendL
    apply occursIn_appendR
    simp only [cityBlock]
    iterate 3 apply occursIn_appendL
    apply occursIn_appendR
    rw [if_pos (List.ne_nil_of_mem hr)]
    exact bulletLines_contains hr

/-- C7: the multi-angle batch appends one single-angle request per
resolvable angle key of the input list, in list order and without
de-duplication, keyed by the angle display name with later entries
overwriting earlier ones of the same name; two distinct valid keys give
exactly two entries; and every rendered request contains the angle display
name and each truthy fact, jurisdiction, and evidence field verbatim. -/
theorem batch_requests (gen : String → Except String String) (cd : Dict)
    (loc : CombinedInfo) (ev : Dict) :
    (∀ (ks : List String) (k : String) (a : AppealAngle),
      get_angle k = Option.some a →
      generate_multi_angle_appeal gen cd loc (ks ++ [k]) ev
        = dictInsert (generate_multi_angle_appeal gen cd loc ks ev) a.name
            (generate_single_angle_appeal gen cd loc a ev)) ∧
    (∀ (ks : List String) (k : String), get_angle k = Option.none →
      generate_multi_angle_appeal gen cd loc (ks ++ [k]) ev
        = generate_multi_angle_appeal gen cd loc ks ev) ∧
    (∀ k1 k2 a1 a2, k1 ≠ k2 →
      get_angle k1 = Option.some a1 → get_angle k2 = Option.some a2 →
      generate_multi_angle_appeal gen cd loc [k1, k2] ev
        = [(a1.name, generate_single_angle_appeal gen cd loc a1 ev),
           (a2.name, generate_single_angle_appeal gen cd loc a2 ev)] ∧
      (generate_multi_angle_appeal gen cd loc [k1, k2] ev).length = 2) ∧
    (∀ a : AppealAngle,
      occursIn a.name (build_appeal_prompt cd loc a ev) ∧
      (∀ k v, (k, v) ∈ cd → v.truthy = true →
        occursIn v.pyStr (build_appeal_prompt cd loc a ev)) ∧
      (∀ k v, (k, v) ∈ ev → v.truthy = true →
        occursIn v.pyStr (build_appeal_prompt cd loc a ev)) ∧
      (∀ st, loc.state = Option.some st →
        occursIn st.name (build_appeal_prompt cd loc a ev) ∧
        ∀ dfn ∈ st.common_defenses,
          occursIn dfn (build_appeal_prompt cd loc a ev)) ∧
      (∀ ci, loc.city = Option.some ci →
        ∀ r ∈ ci.specific_rules,
          occursIn r (build_appeal_prompt cd loc a ev))) := by
  refine ⟨?_, ?_, ?_, fun a => prompt_contains cd loc a ev⟩
  · intro ks k a ha
    unfold generate_multi_angle_appeal
    rw [List.foldl_append]
    simp only [List.foldl_cons, List.foldl_nil, ha]
  · intro ks k ha
    unfold generate_multi_angle_appeal
    rw [List.foldl_append]
    simp only [List.foldl_cons, List.foldl_nil, ha]
  · intro k1 k2 a1 a2 hne h1 h2
    have hname := get_angle_name_inj h1 h2 hne
    have hres : generate_multi_angle_appeal gen cd loc [k1, k2] ev
        = [(a1.name, generate_single_angle_appeal gen cd loc a1 ev),
           (a2.name, generate_single_angle_appeal gen cd loc a2 ev)] := by
      unfold generate_multi_angle_appeal
      simp only [List.foldl_cons, List.foldl_nil, h1, h2]
      unfold dictInsert
      simp [hname]
    exact ⟨hres, by rw [hres]; rfl⟩

/-- Witness for C7: two distinct valid keys yield exactly two entries. -/
theorem batch_requests_witness :
    (generate_multi_angle_appeal (fun p => Except.ok p)
      [("citation_number", Val.str "ABC123")]
      (get_combined_info (Option.some "San Francisco") "CA")
      ["procedural_error", "signage_issues"]
      [("photos", Val.bool true)]).length = 2 :=
  ((batch_requests (fun p => Except.ok p)
      [("citation_number", Val.str "ABC123")]
      (get_combined_info (Option.some "San Francisco") "CA")
      [("photos", Val.bool true)]).2.2.1 "procedural_error" "signage_issues"
      _ _ (by decide) rfl rfl).2

end ParkingAppeal
